import Mathlib

/-!
# Verification of the gibwork bounty bot core

Shallow embedding of the bounty transaction pipeline of the repository
(`src/github.ts`, `src/config.ts`, `src/types.ts` and the bounty module):
command parsing and authorization, the Solana transaction
sign/submit/confirm pipeline with fallback status verification, outcome
reporting, and the polling loop with its processed-comment registry.

External collaborators (GitHub REST, the gib.work marketplace, the Solana
RPC connection) are modelled as an `Env` record of call results; JavaScript
exceptions are modelled with `Except JsError`.  Numbers are modelled as
exact rationals; the JavaScript stringification of a number is an
uninterpreted function of the environment (`Env.numToString`).  Calls to
`connection.getSignatureStatus` are indexed by a call counter that is
threaded through the pipeline, so that a scenario can make successive
status checks answer differently and so that the number of status checks
performed is observable.
-/

set_option maxRecDepth 4000
set_option exponentiation.threshold 1100

namespace GibworkBot

/-! ## Character classes of the command regular expression

The source pattern is `/\/bounty\s+(\d+(?:\.\d+)?)\s+([\w\d]{32,44})/i`
(JavaScript `RegExp`, applied with `String.prototype.match`, i.e. the
leftmost occurrence anywhere in the comment body). -/

/-- JavaScript `\d`. -/
def isDigitChar (c : Char) : Bool := '0' ≤ c && c ≤ '9'

/-- ASCII letter. -/
def isAsciiLetterChar (c : Char) : Bool :=
  ('a' ≤ c && c ≤ 'z') || ('A' ≤ c && c ≤ 'Z')

/-- JavaScript `\w` (which `[\w\d]` collapses to): letters, digits and `_`. -/
def isWordChar (c : Char) : Bool :=
  isAsciiLetterChar c || isDigitChar c || c == '_'

/-- JavaScript `\s`: the whitespace and line-terminator code points. -/
def isJsWhitespace (c : Char) : Bool :=
  c.val == 0x9 || c.val == 0xa || c.val == 0xb || c.val == 0xc ||
  c.val == 0xd || c.val == 0x20 || c.val == 0xa0 || c.val == 0x1680 ||
  (0x2000 ≤ c.val && c.val ≤ 0x200a) || c.val == 0x2028 ||
  c.val == 0x2029 || c.val == 0x202f || c.val == 0x205f ||
  c.val == 0x3000 || c.val == 0xfeff

/-- Case-insensitive literal match (the regex carries the `i` flag);
returns the rest of the input after the literal. -/
def matchLiteralCI : List Char → List Char → Option (List Char)
  | [], cs => some cs
  | _ :: _, [] => none
  | p :: ps, c :: cs => if c.toLower == p.toLower then matchLiteralCI ps cs else none

/--
Match the bounty pattern anchored at the head of `cs`, returning the two
capture groups (amount string, token string).  For this particular pattern
greedy matching needs no backtracking: the character classes `\s`, `\d`,
`.` and `[\w\d]` that delimit each component are pairwise disjoint at every
boundary, so the maximal munch at each step is the only viable one, and the
bounded quantifier `{32,44}` is final so it simply truncates the word run
at 44 and requires at least 32.
-/
def matchBountyAt (cs : List Char) : Option (String × String) :=
  match matchLiteralCI "/bounty".data cs with
  | none => none
  | some r0 =>
    let (sp1, r1) := r0.span isJsWhitespace
    if sp1.isEmpty then none else
    let (intPart, r2) := r1.span isDigitChar
    if intPart.isEmpty then none else
    let (amountChars, r3) :=
      match r2 with
      | '.' :: r2' =>
        let (fracPart, r2'') := r2'.span isDigitChar
        if fracPart.isEmpty then (intPart, r2) else (intPart ++ '.' :: fracPart, r2'')
      | _ => (intPart, r2)
    let (sp2, r4) := r3.span isJsWhitespace
    if sp2.isEmpty then none else
    let (wordRun, _) := r4.span isWordChar
    let token := wordRun.take 44
    if token.length < 32 then none
    else some (String.mk amountChars, String.mk token)

/-- `String.prototype.match` with a non-global regex: the leftmost position
at which the pattern matches, if any. -/
def searchBountyCommand : List Char → Option (String × String)
  | [] => none
  | c :: cs =>
    match matchBountyAt (c :: cs) with
    | some r => some r
    | none => searchBountyCommand cs

/-! ## Numbers

`parseFloat(match[1])` is applied only to strings of the shape
`\d+(\.\d+)?`; it rounds their decimal value to an IEEE-754 binary64.
Two aspects of that are modelled: the result is `Infinity` exactly when the
decimal value reaches the binary64 overflow threshold `2^1024 - 2^970`
(the midpoint above the largest finite double; round-to-nearest-even sends
it and everything above it to `Infinity`), and otherwise it is a finite
non-negative value, kept as the exact rational (the mantissa rounding of
in-range values is not modelled; no claim here depends on which nearby
representable value is chosen, only on sign and finiteness). -/

/-- A JavaScript number as the pipeline can observe it here: a finite value
or `Infinity`. -/
inductive JsNumber where
  | finite (val : ℚ)
  | infinity
deriving Repr, DecidableEq

/-- `true` on finite values, `false` on `Infinity`. -/
def JsNumber.isFinite : JsNumber → Bool
  | .finite _ => true
  | .infinity => false

/-- `n > 0` in JavaScript (`Infinity > 0` is `true`). -/
def JsNumber.isPositive : JsNumber → Bool
  | .finite q => decide (0 < q)
  | .infinity => true

/-- `n >= 0` in JavaScript (`Infinity >= 0` is `true`). -/
def JsNumber.isNonneg : JsNumber → Bool
  | .finite q => decide (0 ≤ q)
  | .infinity => true

def digitVal (c : Char) : Nat := c.toNat - '0'.toNat

def digitsToNat (ds : List Char) : Nat :=
  ds.foldl (fun acc c => 10 * acc + digitVal c) 0

/-- `2^1024 - 2^970 = 2^970 * (2^54 - 1)`: the smallest decimal value that
binary64 round-to-nearest-even rounds to `Infinity`. -/
def doubleOverflowNum : Nat := 2 ^ 970 * (2 ^ 54 - 1)

/-- Whether the decimal value `scaledNum / 10^fracLen` reaches the binary64
overflow threshold (compared on cleared denominators). -/
def jsOverflows (scaledNum fracLen : Nat) : Bool :=
  doubleOverflowNum * 10 ^ fracLen ≤ scaledNum

/-- `parseFloat` on a captured `\d+(\.\d+)?` string: `Infinity` on
over-range values, the exact decimal value otherwise. -/
def parseFloatDec (s : String) : JsNumber :=
  match s.data.dropWhile (fun c => c != '.') with
  | _ :: frac =>
    if jsOverflows (digitsToNat (s.data.takeWhile (fun c => c != '.') ++ frac)) frac.length
    then .infinity
    else .finite ((digitsToNat (s.data.takeWhile (fun c => c != '.')) : ℚ) +
      (digitsToNat frac : ℚ) / ((10 : ℚ) ^ frac.length))
  | [] =>
    if jsOverflows (digitsToNat (s.data.takeWhile (fun c => c != '.'))) 0 then .infinity
    else .finite (digitsToNat (s.data.takeWhile (fun c => c != '.')))

/-! ## Data model (from `src/types.ts`) -/

structure GitHubUser where
  login : String
deriving Repr, DecidableEq

structure GitHubComment where
  id : Nat
  body : String
  user : GitHubUser
  issue_url : String
  created_at : String
deriving Repr, DecidableEq

structure GitHubIssue where
  title : String
  body : Option String
  number : Nat
  repository_url : String
deriving Repr, DecidableEq

structure GitHubRepository where
  language : Option String
deriving Repr, DecidableEq

structure BountyCommand where
  amount : JsNumber
  tokenAddress : String
  issueUrl : String
deriving Repr, DecidableEq

structure TokenInfo where
  mintAddress : String
  amount : JsNumber
deriving Repr, DecidableEq

structure BountyRequestPayload where
  token : TokenInfo
  title : String
  content : String
  requirements : String
  tags : List String
  payer : String
  isHidden : Bool
deriving Repr, DecidableEq

structure BountyResponse where
  taskId : String
  serializedTransaction : String
deriving Repr, DecidableEq

structure AuthorizedUser where
  username : String
deriving Repr, DecidableEq

/-! ## `src/config.ts`: `isAuthorized` -/

/-- `toLowerCase`, character by character (ASCII, which is all the case
folding the command literal and usernames need). -/
def strToLower (s : String) : String := String.mk (s.data.map Char.toLower)

/-- `isAuthorized` from `src/config.ts`: if no authorized users are
specified, no one is authorized; otherwise case-insensitive username
comparison against the list. -/
def isAuthorized (authorizedUsers : List AuthorizedUser) (username : String) : Bool :=
  if authorizedUsers.length == 0 then false
  else authorizedUsers.any (fun u => strToLower u.username == strToLower username)

/-! ## `src/github.ts`: `parseBountyCommand` -/

/-- `parseBountyCommand` from `src/github.ts`: match the regex against the
comment body; on a match from an authorized user build the command,
otherwise return `null`. -/
def parseBountyCommand (authorizedUsers : List AuthorizedUser)
    (comment : GitHubComment) : Option BountyCommand :=
  match searchBountyCommand comment.body.data with
  | some (amountStr, tokenStr) =>
    if isAuthorized authorizedUsers comment.user.login then
      some { amount := parseFloatDec amountStr
             tokenAddress := tokenStr
             issueUrl := comment.issue_url }
    else none
  | none => none

/-! ## The external environment

A `JsError` models a JavaScript exception value as the pipeline inspects
it: its `message`, the optional `signature` property that
`@solana/web3.js` confirmation errors carry, and whether it is an
`instanceof TransactionExpiredBlockheightExceededError`. -/

structure JsError where
  message : String
  signature : Option String
  isBlockheightExceeded : Bool
deriving Repr, DecidableEq

/-- The `value` field of a `getSignatureStatus` RPC response (its
`confirmationStatus` is itself optional). -/
structure SignatureStatusValue where
  confirmationStatus : Option String
deriving Repr, DecidableEq

/-- One comment successfully posted through `commentOnIssue`. -/
structure PostedComment where
  owner : String
  repo : String
  issueNumber : Nat
  body : String
deriving Repr, DecidableEq

/-- Results of every external collaborator call, plus the read-only
configuration (`WALLET_PUBLIC_KEY`, `AUTHORIZED_USERS`) and the JavaScript
stringification of a number, left uninterpreted.  `getSignatureStatus`
additionally takes the index of the status-check call, so repeated checks
may answer differently. -/
structure Env where
  walletPublicKey : String
  authorizedUsers : List AuthorizedUser
  numToString : JsNumber → String
  getIssueFromUrl : String → Except JsError GitHubIssue
  getRepositoryFromUrl : String → Except JsError GitHubRepository
  postTask : BountyRequestPayload → Except JsError BountyResponse
  commentOnIssue : String → String → Nat → String → Except JsError Unit
  signTransactionBlob : String → Except JsError Unit
  sendTransaction : String → Except JsError String
  getLatestBlockhash : Except JsError Unit
  confirmTransaction : Except JsError Unit
  getSignatureStatus : Nat → String → Except JsError (Option SignatureStatusValue)
  listCommentsForRepo : String → String → Except JsError (List GitHubComment)

/-! ## `src/github.ts`: URL helpers -/

/-- JavaScript `String.prototype.split` with a one-character separator
(structurally recursive so that concrete URLs evaluate). -/
def splitOnChar (sep : Char) : List Char → List (List Char)
  | [] => [[]]
  | c :: cs =>
    if c == sep then [] :: splitOnChar sep cs
    else
      match splitOnChar sep cs with
      | h :: t => (c :: h) :: t
      | [] => [[c]]

/-- `url.split('/')`. -/
def jsSplitSlash (s : String) : List String :=
  (splitOnChar '/' s.data).map String.mk

/-- JavaScript `Array.prototype.indexOf`: index of the element, `-1` if absent. -/
def jsIndexOf (parts : List String) (x : String) : Int :=
  match parts.findIdx? (· == x) with
  | some i => (i : Int)
  | none => -1

/-- JavaScript array indexing; an out-of-range (or negative) index gives
`undefined`, which stringifies to `"undefined"` when interpolated. -/
def jsArrayGet (parts : List String) (i : Int) : String :=
  if i < 0 then "undefined" else parts.getD i.toNat "undefined"

/-- `getRepoInfoFromUrl` from `src/github.ts`: split the repository URL on
`/` and take the two components after `"repos"`. -/
def getRepoInfoFromUrl (repoUrl : String) : String × String :=
  let urlParts := jsSplitSlash repoUrl
  let ownerIndex := jsIndexOf urlParts "repos" + 1
  (jsArrayGet urlParts ownerIndex, jsArrayGet urlParts (ownerIndex + 1))

/-- `parseRepoFullName` from `src/github.ts`: destructure `owner/repo`. -/
def parseRepoFullName (fullName : String) : String × String :=
  let parts := jsSplitSlash fullName
  (parts.getD 0 "undefined", parts.getD 1 "undefined")

/-- `getRecentComments` from `src/github.ts`: listing errors are caught and
an empty list returned. -/
def getRecentComments (env : Env) (owner repo : String) : List GitHubComment :=
  match env.listCommentsForRepo owner repo with
  | .error _ => []
  | .ok data => data

/-! ## The bounty module: marketplace request -/

/-- JavaScript `x || d` on a nullable string: `null`, `undefined` and `""`
are all falsy. -/
def jsOrString (s : Option String) (d : String) : String :=
  match s with
  | none => d
  | some t => if t == "" then d else t

/-- `createBountyTransaction`: fetch issue and repository details, build
the marketplace payload and POST it.  Its `catch` only logs and rethrows,
so it is the plain sequencing of the three calls. -/
def createBountyTransaction (env : Env) (command : BountyCommand) :
    Except JsError BountyResponse :=
  match env.getIssueFromUrl command.issueUrl with
  | .error e => .error e
  | .ok issueDetails =>
    match env.getRepositoryFromUrl issueDetails.repository_url with
    | .error e => .error e
    | .ok repository =>
      env.postTask
        { token := { mintAddress := command.tokenAddress, amount := command.amount }
          title := issueDetails.title
          content := jsOrString issueDetails.body "No description provided"
          requirements := "PR to be merged"
          tags := [jsOrString repository.language "unknown"]
          payer := env.walletPublicKey
          isHidden := true }

/-! ## The bounty module: transaction status and submission -/

/-- `checkTransactionStatus`: query `getSignatureStatus` (at call index
`n`); a thrown error or a missing status yields `false`, otherwise the
transaction counts as confirmed exactly when its `confirmationStatus` is
`"confirmed"` or `"finalized"`.  Returns the next call index alongside. -/
def checkTransactionStatus (env : Env) (signat : String) (n : Nat) : Bool × Nat :=
  match env.getSignatureStatus n signat with
  | .error _ => (false, n + 1)
  | .ok none => (false, n + 1)
  | .ok (some value) =>
    (value.confirmationStatus == some "confirmed" ||
      value.confirmationStatus == some "finalized", n + 1)

/-- The `for (let i = 0; i < 3; i++)` loop of additional delayed status
checks run when the confirmation error was a blockhash-height-exceeded
condition.  The source discards the result of the loop (a confirming check
merely `break`s), so only the status-check call counter is returned. -/
def retryStatusChecks (env : Env) (signat : String) : Nat → Nat → Nat
  | 0, n => n
  | fuel + 1, n =>
    let (retryConfirmed, n₁) := checkTransactionStatus env signat n
    if retryConfirmed then n₁ else retryStatusChecks env signat fuel n₁

/--
`signAndSendTransaction`: deserialize and sign the blob, submit it, then
try to confirm against the latest blockhash raced with a 60s timeout
(`env.confirmTransaction` is the outcome of that race; the timeout shows up
as an error `Confirmation timeout`).  On a confirmation error: one fallback
status check; if unconfirmed and the error is blockhash-height-exceeded,
up to 3 further checks, after which the signature is still returned;
any other unconfirmed error is rethrown as a fresh
`Transaction may have failed: …` error (which carries no `signature`
property).  The outer catch returns `error.signature` when that property is
a non-empty string, else rethrows.
-/
def signAndSendTransaction (env : Env) (serializedTransaction : String) (n : Nat) :
    Except JsError String × Nat :=
  let inner : Except JsError String × Nat :=
    match env.signTransactionBlob serializedTransaction with
    | .error e => (.error e, n)
    | .ok _ =>
      match env.sendTransaction serializedTransaction with
      | .error e => (.error e, n)
      | .ok signat =>
        let afterConfirm : Except JsError Unit × Nat :=
          match env.getLatestBlockhash with
          | .error e => (.error e, n)
          | .ok _ =>
            match env.confirmTransaction with
            | .error e => (.error e, n)
            | .ok _ => (.ok (), n)
        match afterConfirm.1 with
        | .ok _ => (.ok signat, afterConfirm.2)
        | .error confirmError =>
          let isConfirmed := (checkTransactionStatus env signat afterConfirm.2).1
          let n₂ := (checkTransactionStatus env signat afterConfirm.2).2
          if isConfirmed then (.ok signat, n₂)
          else if confirmError.isBlockheightExceeded then
            (.ok signat, retryStatusChecks env signat 3 n₂)
          else
            (.error { message := "Transaction may have failed: " ++ confirmError.message
                      signature := none
                      isBlockheightExceeded := false }, n₂)
  match inner.1 with
  | .ok s => (.ok s, inner.2)
  | .error e =>
    match e.signature with
    | some s => if s == "" then (.error e, inner.2) else (.ok s, inner.2)
    | none => (.error e, inner.2)

/-! ## The bounty module: outcome report templates

The comment bodies are the source templates with their interpolations
spelled out as concatenations; the explorer URL is inlined where it occurs
so that each template is literally of the form `prefix ++ signature ++
suffix`. -/

/-- Token display label: the two well-known mints get human labels, any
other address displays as `tokens`. -/
def tokenTypeLabel (tokenAddress : String) : String :=
  if tokenAddress == "So11111111111111111111111111111111111111112" then "SOL"
  else if tokenAddress == "EPjFWdd5AufqSSqeM2qN1xzybapC8G4wEGGkZwyTDt1v" then "USDC"
  else "tokens"

def explorerUrl (signat : String) : String :=
  "https://explorer.solana.com/tx/" ++ signat

def bountyUrl (taskId : String) : String :=
  "https://app.gib.work/tasks/" ++ taskId

/-- Everything of the success comment before the transaction signature. -/
def successReportHead (env : Env) (command : BountyCommand)
    (resp : BountyResponse) (statusNote : String) : String :=
  "✅ Bounty created successfully!\n\nBounty ID: " ++ resp.taskId ++
  "\nAmount: " ++ env.numToString command.amount ++ " " ++
  tokenTypeLabel command.tokenAddress ++ "\n" ++ statusNote ++
  "\n\n🔗 Links:\n- Bounty: [View on Gib.work](" ++ bountyUrl resp.taskId ++
  ") (Private bounty, only accessible via this link)\n- Transaction: [View on Solana Explorer](https://explorer.solana.com/tx/"

/-- The success comment posted on the happy path (the status note says
either `Transaction confirmed.` or that confirmation is pending). -/
def successReportBody (env : Env) (command : BountyCommand)
    (resp : BountyResponse) (signat statusNote : String) : String :=
  successReportHead env command resp statusNote ++ signat ++
    ")\n\nThank you for contributing to the project!"

/-- Everything of the recovered-success comment before the signature. -/
def recoveredReportHead (env : Env) (command : BountyCommand)
    (resp : BountyResponse) : String :=
  "✅ Bounty created successfully (with confirmation issues)!\n\n" ++
  "We encountered some issues confirming the transaction, but it appears to have been successful.\n" ++
  "Amount: " ++ env.numToString command.amount ++ " " ++
  tokenTypeLabel command.tokenAddress ++
  "\n\n🔗 Links:\n- Bounty: [View on Gib.work](" ++ bountyUrl resp.taskId ++
  ") (Private bounty, only accessible via this link)\n- Transaction: [View on Solana Explorer](https://explorer.solana.com/tx/"

/-- The comment posted when the error handler finds the transaction
succeeded after all. -/
def recoveredReportBody (env : Env) (command : BountyCommand)
    (resp : BountyResponse) (signat : String) : String :=
  recoveredReportHead env command resp ++ signat ++
    ")\n\nPlease verify the transaction status using the links above."

/-- The `errorMessage` assembled in the failure path: the error message,
plus — only when a transaction signature is known (JavaScript truthiness:
a non-empty string) — the explorer link and, when a task id is also known
(likewise a non-empty string), the marketplace link. -/
def failureErrorMessage (error : JsError) (transactionSignature : Option String)
    (bountyResponse : Option BountyResponse) : String :=
  match transactionSignature with
  | none => error.message
  | some signat =>
    if signat == "" then error.message else
    match bountyResponse with
    | some resp =>
      if resp.taskId != "" then
        error.message ++
        "\n\nTransaction was sent but confirmation failed. The bounty may still have been created:\n- Bounty: [View on Gib.work](" ++
        bountyUrl resp.taskId ++
        ") (Private bounty, only accessible via this link)\n- Transaction: [View on Solana Explorer](" ++
        explorerUrl signat ++ ")"
      else
        error.message ++
        "\n\nTransaction was sent but confirmation failed. You can check its status here: [" ++
        signat ++ "](" ++ explorerUrl signat ++ ")"
    | none =>
      error.message ++
      "\n\nTransaction was sent but confirmation failed. You can check its status here: [" ++
      signat ++ "](" ++ explorerUrl signat ++ ")"

/-- The failure comment body. -/
def failureReportBody (errorMessage : String) : String :=
  "❌ Issue with bounty creation: " ++ errorMessage

/-- The status note chosen by the final pre-report status check. -/
def statusNoteFor (isConfirmed : Bool) : String :=
  if isConfirmed then "Transaction confirmed."
  else "Transaction submitted but confirmation is pending. You can check its status using the transaction link below."

/-! ## The bounty module: `processBountyCommand` -/

/-- The final block of the error handler: fetch the issue and post the
failure comment; any error while doing so is caught, logged and
swallowed. -/
def postFailureReport (env : Env) (command : BountyCommand)
    (transactionSignature : Option String) (bountyResponse : Option BountyResponse)
    (error : JsError) (n : Nat) :
    Except JsError Unit × List PostedComment × Nat :=
  match env.getIssueFromUrl command.issueUrl with
  | .error _ => (.ok (), [], n)
  | .ok issueDetails =>
    match env.commentOnIssue (getRepoInfoFromUrl issueDetails.repository_url).1
        (getRepoInfoFromUrl issueDetails.repository_url).2 issueDetails.number
        (failureReportBody (failureErrorMessage error transactionSignature bountyResponse)) with
    | .ok _ =>
      (.ok (),
       [⟨(getRepoInfoFromUrl issueDetails.repository_url).1,
         (getRepoInfoFromUrl issueDetails.repository_url).2, issueDetails.number,
         failureReportBody (failureErrorMessage error transactionSignature bountyResponse)⟩], n)
    | .error _ => (.ok (), [], n)

/-- The `catch` block of `processBountyCommand`.  When both a signature
and a bounty response are in hand (JavaScript truthiness: the signature
must be a non-empty string) it re-checks the transaction status and, if
successful, posts the recovered-success comment and returns; any error in
that recovery block is caught and falls through to the failure report. -/
def handleProcessError (env : Env) (command : BountyCommand)
    (transactionSignature : Option String) (bountyResponse : Option BountyResponse)
    (error : JsError) (n : Nat) :
    Except JsError Unit × List PostedComment × Nat :=
  match transactionSignature, bountyResponse with
  | some signat, some resp =>
    if signat == "" then
      postFailureReport env command (some signat) (some resp) error n
    else
      if (checkTransactionStatus env signat n).1 then
        match env.getIssueFromUrl command.issueUrl with
        | .error _ =>
          postFailureReport env command (some signat) (some resp) error
            (checkTransactionStatus env signat n).2
        | .ok issueDetails =>
          match env.commentOnIssue (getRepoInfoFromUrl issueDetails.repository_url).1
              (getRepoInfoFromUrl issueDetails.repository_url).2 issueDetails.number
              (recoveredReportBody env command resp signat) with
          | .ok _ =>
            (.ok (),
             [⟨(getRepoInfoFromUrl issueDetails.repository_url).1,
               (getRepoInfoFromUrl issueDetails.repository_url).2, issueDetails.number,
               recoveredReportBody env command resp signat⟩],
             (checkTransactionStatus env signat n).2)
          | .error _ =>
            postFailureReport env command (some signat) (some resp) error
              (checkTransactionStatus env signat n).2
      else
        postFailureReport env command (some signat) (some resp) error
          (checkTransactionStatus env signat n).2
  | sigOpt, respOpt => postFailureReport env command sigOpt respOpt error n

/--
`processBountyCommand`: create the bounty, sign and submit its
transaction, fetch the issue, make one final status check to choose the
status note, and post the success comment; every failure anywhere in that
flow is diverted to `handleProcessError` with whatever signature and
bounty response had been obtained by then.
-/
def processBountyCommand (env : Env) (command : BountyCommand) (n : Nat) :
    Except JsError Unit × List PostedComment × Nat :=
  match createBountyTransaction env command with
  | .error e => handleProcessError env command none none e n
  | .ok bountyResponse =>
    match (signAndSendTransaction env bountyResponse.serializedTransaction n).1 with
    | .error e =>
      handleProcessError env command none (some bountyResponse) e
        (signAndSendTransaction env bountyResponse.serializedTransaction n).2
    | .ok transactionSignature =>
      match env.getIssueFromUrl command.issueUrl with
      | .error e =>
        handleProcessError env command (some transactionSignature) (some bountyResponse) e
          (signAndSendTransaction env bountyResponse.serializedTransaction n).2
      | .ok issueDetails =>
        match env.commentOnIssue (getRepoInfoFromUrl issueDetails.repository_url).1
            (getRepoInfoFromUrl issueDetails.repository_url).2 issueDetails.number
            (successReportBody env command bountyResponse transactionSignature
              (statusNoteFor
                (checkTransactionStatus env transactionSignature
                  (signAndSendTransaction env bountyResponse.serializedTransaction n).2).1)) with
        | .error e =>
          handleProcessError env command (some transactionSignature) (some bountyResponse) e
            (checkTransactionStatus env transactionSignature
              (signAndSendTransaction env bountyResponse.serializedTransaction n).2).2
        | .ok _ =>
          (.ok (),
           [⟨(getRepoInfoFromUrl issueDetails.repository_url).1,
             (getRepoInfoFromUrl issueDetails.repository_url).2, issueDetails.number,
             successReportBody env command bountyResponse transactionSignature
               (statusNoteFor
                 (checkTransactionStatus env transactionSignature
                   (signAndSendTransaction env bountyResponse.serializedTransaction n).2).1)⟩],
           (checkTransactionStatus env transactionSignature
             (signAndSendTransaction env bountyResponse.serializedTransaction n).2).2)

/-! ## The poll loop: processed-comment registry and `checkForBountyCommands` -/

/-- `processedComments.add(id)` on the `Set<number>` registry. -/
def markSeen (processedComments : List Nat) (id : Nat) : List Nat :=
  if processedComments.contains id then processedComments else id :: processedComments

/--
The inner comment loop of `checkForBountyCommands`: skip comments already
in the registry, mark each new comment as processed *before* parsing it,
and run the pipeline on every parsed command.  Returns the new registry,
all comments posted, the pipeline invocations (comment id paired with the
command), and the status-check call counter.
-/
def processComments (env : Env) :
    List GitHubComment → List Nat → Nat →
    List Nat × List PostedComment × List (Nat × BountyCommand) × Nat
  | [], processedComments, n => (processedComments, [], [], n)
  | comment :: rest, processedComments, n =>
    if processedComments.contains comment.id then
      processComments env rest processedComments n
    else
      let processed₁ := comment.id :: processedComments
      match parseBountyCommand env.authorizedUsers comment with
      | none => processComments env rest processed₁ n
      | some bountyCommand =>
        let run := processBountyCommand env bountyCommand n
        let rest' := processComments env rest processed₁ run.2.2
        (rest'.1, run.2.1 ++ rest'.2.1, (comment.id, bountyCommand) :: rest'.2.2.1, rest'.2.2.2)

/-- One poll tick over the configured repositories.  `getRecentComments`
already swallows listing errors, and `processBountyCommand` never throws,
so the per-repository `try`/`catch` of the source has nothing left to
catch here. -/
def checkForBountyCommands (env : Env) :
    List String → List Nat → Nat →
    List Nat × List PostedComment × List (Nat × BountyCommand) × Nat
  | [], processedComments, n => (processedComments, [], [], n)
  | repoFullName :: rest, processedComments, n =>
    let owner := (parseRepoFullName repoFullName).1
    let repo := (parseRepoFullName repoFullName).2
    let comments := getRecentComments env owner repo
    let this' := processComments env comments processedComments n
    let rest' := checkForBountyCommands env rest this'.1 this'.2.2.2
    (rest'.1, this'.2.1 ++ rest'.2.1, this'.2.2.1 ++ rest'.2.2.1, rest'.2.2.2)

/-! ## Auxiliary predicates used by the theorems -/

/-- `body` contains `needle` as a substring. -/
def strContains (hay needle : String) : Bool :=
  hay.data.tails.any (fun t => needle.data.isPrefixOf t)

/-- `body` mentions the signature: it decomposes around it. -/
def MentionsSig (body signat : String) : Prop :=
  ∃ p q, body = p ++ signat ++ q

/-- The environment can report: issue lookups succeed and posting a comment
succeeds. -/
def ReportingOk (env : Env) : Prop :=
  (∀ url, ∃ issueDetails, env.getIssueFromUrl url = .ok issueDetails) ∧
  (∀ owner repo issueNumber body, env.commentOnIssue owner repo issueNumber body = .ok ())

/-! ## The command grammar as the spec words it

A second grammar definition, written from the sentence of the claim/spec —
"the literal `/bounty`, one or more spaces, a numeric amount (integer or
decimal), one or more spaces, and a token address that is an alphanumeric
string of 32–44 characters" — to be compared with the source pattern
above.  It differs from the source in three places: the literal is
case-sensitive, the separators are the space character, and the token
class is alphanumeric (no underscore). -/

def isAlphanumericChar (c : Char) : Bool := isAsciiLetterChar c || isDigitChar c

/-- Exact (case-sensitive) literal match. -/
def matchLiteralExact : List Char → List Char → Option (List Char)
  | [], cs => some cs
  | _ :: _, [] => none
  | p :: ps, c :: cs => if c == p then matchLiteralExact ps cs else none

/-- The spec-worded grammar, anchored at the head of the input. -/
def specGrammarMatchAt (cs : List Char) : Bool :=
  match matchLiteralExact "/bounty".data cs with
  | none => false
  | some r0 =>
    let (sp1, r1) := r0.span (fun c => c == ' ')
    if sp1.isEmpty then false else
    let (intPart, r2) := r1.span isDigitChar
    if intPart.isEmpty then false else
    let r3 :=
      match r2 with
      | '.' :: r2' =>
        let (fracPart, r2'') := r2'.span isDigitChar
        if fracPart.isEmpty then r2 else r2''
      | _ => r2
    let (sp2, r4) := r3.span (fun c => c == ' ')
    if sp2.isEmpty then false else
    let (alnumRun, _) := r4.span isAlphanumericChar
    decide (32 ≤ alnumRun.length)

/-- The spec-worded grammar occurs somewhere in the body. -/
def specGrammarMatch (body : String) : Bool :=
  body.data.tails.any specGrammarMatchAt

/-- The source pattern occurs somewhere in the body (declarative version of
`searchBountyCommand`). -/
def codeGrammarMatch (body : String) : Bool :=
  body.data.tails.any (fun t => (matchBountyAt t).isSome)

/-! ## Concrete fixtures for witnesses and counterexamples -/

/-- A 32-character token address (a plausible base58 mint). -/
def tokenA : String := "GDfnEsia2WLAW5t8yx2X5j2mkfA74i5kwGdDuZHt7XmG"

def issueFix : GitHubIssue :=
  { title := "Fix the widget"
    body := some "The widget is broken."
    number := 7
    repository_url := "https://api.github.com/repos/acme/widgets" }

def repoFix : GitHubRepository := { language := some "TypeScript" }

def respFix : BountyResponse := { taskId := "TASK1", serializedTransaction := "TX1" }

/-- A base environment in which every collaborator call succeeds and the
transaction confirms normally. -/
def envBase : Env :=
  { walletPublicKey := "PAYER"
    authorizedUsers := [⟨"Alice"⟩]
    numToString := fun q =>
      if q = .finite 5 then "5" else if q = .finite 1 then "1"
      else if q = .infinity then "Infinity" else "0"
    getIssueFromUrl := fun _ => .ok issueFix
    getRepositoryFromUrl := fun _ => .ok repoFix
    postTask := fun _ => .ok respFix
    commentOnIssue := fun _ _ _ _ => .ok ()
    signTransactionBlob := fun _ => .ok ()
    sendTransaction := fun _ => .ok "TESTSIGNATURE123"
    getLatestBlockhash := .ok ()
    confirmTransaction := .ok ()
    getSignatureStatus := fun _ _ => .ok (some ⟨some "confirmed"⟩)
    listCommentsForRepo := fun _ _ => .ok [] }

def commandFix : BountyCommand :=
  { amount := .finite 5
    tokenAddress := tokenA
    issueUrl := "https://api.github.com/repos/acme/widgets/issues/7" }

def commentFix : GitHubComment :=
  { id := 101
    body := "/bounty 5 " ++ tokenA
    user := ⟨"alice"⟩
    issue_url := "https://api.github.com/repos/acme/widgets/issues/7"
    created_at := "2024-01-01T00:00:00Z" }

/-- Environment in which the confirmation race fails with the plain
`Confirmation timeout` error (which, unlike the blockhash-height error
class, carries no `signature` property) and the network never reports the
transaction as found. -/
def envTimeout : Env :=
  { envBase with
    confirmTransaction := .error
      { message := "Confirmation timeout", signature := none, isBlockheightExceeded := false }
    getSignatureStatus := fun _ _ => .ok none }

/-- Environment in which confirmation fails with the
blockhash-height-exceeded error and no status check ever confirms. -/
def envBlockheight : Env :=
  { envBase with
    confirmTransaction := .error
      { message := "block height exceeded", signature := none, isBlockheightExceeded := true }
    getSignatureStatus := fun _ _ => .ok none }

def c6Body : String := "/bounty 1 ________________________________"

def c6Comment : GitHubComment := { commentFix with body := c6Body }

def c9Comment : GitHubComment := { commentFix with body := "/bounty 0 " ++ tokenA }

def c9Command : BountyCommand :=
  { amount := .finite 0, tokenAddress := tokenA, issueUrl := commentFix.issue_url }

/-- A 310-digit amount literal, `1` followed by 309 zeros: its value
`10^309` exceeds the binary64 overflow threshold, so `parseFloat` returns
`Infinity` on it. -/
def c9BigAmount : String := String.mk ('1' :: List.replicate 309 '0')

def c9BigComment : GitHubComment :=
  { commentFix with body := "/bounty " ++ c9BigAmount ++ " " ++ tokenA }

def c9BigCommand : BountyCommand :=
  { amount := .infinity, tokenAddress := tokenA, issueUrl := commentFix.issue_url }

/-! # Theorems -/

/-- C10: `checkTransactionStatus` is total — a boolean is returned for
every signature — and it returns `true` exactly when the status query
succeeds and reports confirmation status `confirmed` or `finalized`; a
thrown query error or an absent status yields `false`, so fallback
verification can never itself crash the pipeline.  The call-counter
conjunct records that exactly one network query is made. -/
theorem c10_check_transaction_status_total (env : Env) (signat : String) (n : Nat) :
    ((checkTransactionStatus env signat n).1 = true ↔
      ∃ value, env.getSignatureStatus n signat = .ok (some value) ∧
        (value.confirmationStatus = some "confirmed" ∨
         value.confirmationStatus = some "finalized")) ∧
    (checkTransactionStatus env signat n).2 = n + 1 := by
  unfold checkTransactionStatus
  cases h : env.getSignatureStatus n signat with
  | error e => simp [h]
  | ok v =>
    cases v with
    | none => simp [h]
    | some value => simp [h, Bool.or_eq_true, beq_iff_eq]

/-- C1: the claim fails on the code.  In `envTimeout` submission returns
the signature `TESTSIGNATURE123`, the confirmation race rejects with the
plain `Confirmation timeout` error and the fallback status check does not
confirm; `signAndSendTransaction` then throws a *fresh* error carrying no
`signature` property, so `processBountyCommand`'s handler never learns the
signature and the terminal failure report does not reference it — the
submitted signature is lost on this failure path. -/
theorem c1_signature_lost_on_failure_path :
    envTimeout.sendTransaction "TX1" = .ok "TESTSIGNATURE123" ∧
    (signAndSendTransaction envTimeout "TX1" 0).1 =
      .error { message := "Transaction may have failed: Confirmation timeout"
               signature := none
               isBlockheightExceeded := false } ∧
    (processBountyCommand envTimeout commandFix 0).2.1 =
      [{ owner := "acme", repo := "widgets", issueNumber := 7
         body := failureReportBody "Transaction may have failed: Confirmation timeout" }] ∧
    strContains (failureReportBody "Transaction may have failed: Confirmation timeout")
      "TESTSIGNATURE123" = false := by
  exact ⟨rfl, rfl, rfl, rfl⟩

/-- C6 counterexample: a comment whose token is 32 underscores does not
match the grammar as the claim words it (its token address is not an
alphanumeric string), yet `parse` does not return `null`: the source
pattern's `[\w\d]` class also accepts `_`. -/
theorem c6_counterexample :
    specGrammarMatch c6Body = false ∧
    parseBountyCommand [⟨"alice"⟩] c6Comment =
      some { amount := .finite 1
             tokenAddress := "________________________________"
             issueUrl := commentFix.issue_url } := by
  exact ⟨by decide, by decide⟩

/-- If the pattern matches at no suffix of the input, the leftmost search
finds nothing, and conversely. -/
theorem searchBountyCommand_eq_none_iff (cs : List Char) :
    searchBountyCommand cs = none ↔ ∀ t ∈ cs.tails, matchBountyAt t = none := by
  induction cs with
  | nil =>
    simp [searchBountyCommand]
    rfl
  | cons c rest ih =>
    rw [List.tails_cons]
    cases h : matchBountyAt (c :: rest) with
    | some r =>
      simp [searchBountyCommand, h]
    | none =>
      simp only [searchBountyCommand, h, List.mem_cons, forall_eq_or_imp]
      rw [ih]
      simp [h]

/-- C6 (amended): for every comment body in which the source pattern — a
case-insensitive `/bounty`, one or more whitespace characters, a numeric
amount (digits with an optional decimal part), one or more whitespace
characters, and a token of 32–44 word characters (letters, digits or
underscore) — occurs at no position, `parse` returns `null` (it is a pure
function, so there are no side effects); such text is ignored, not an
error. -/
theorem c6_no_match_parse_null (users : List AuthorizedUser) (comment : GitHubComment)
    (h : codeGrammarMatch comment.body = false) :
    parseBountyCommand users comment = none := by
  have hs : searchBountyCommand comment.body.data = none := by
    rw [searchBountyCommand_eq_none_iff]
    intro t ht
    unfold codeGrammarMatch at h
    rw [List.any_eq_false] at h
    exact Option.not_isSome_iff_eq_none.mp (by simpa using h t ht)
  unfold parseBountyCommand
  rw [hs]

/-- Witness for C6: a plain-text comment matches nowhere and parses to
`null`. -/
theorem c6_no_match_parse_null_witness :
    codeGrammarMatch ("Thanks, looks good to me!" : String) = false ∧
    parseBountyCommand [⟨"alice"⟩] { commentFix with body := "Thanks, looks good to me!" } = none := by
  exact ⟨by decide, c6_no_match_parse_null _ _ (by decide)⟩

/-- C9 counterexample: the claim fails in two ways.  `/bounty 0 <token>`
from an allow-listed user parses to a command whose amount `0` is not
strictly positive; and a 310-digit amount parses to a command whose amount
is `Infinity` — the binary64 overflow of `parseFloat` — which is not
finite. -/
theorem c9_counterexample :
    (parseBountyCommand envBase.authorizedUsers c9Comment = some c9Command ∧
      c9Command.amount.isPositive = false) ∧
    (parseBountyCommand envBase.authorizedUsers c9BigComment = some c9BigCommand ∧
      c9BigCommand.amount.isFinite = false) := by
  exact ⟨⟨by decide, by decide⟩, ⟨by decide, by decide⟩⟩

/-- `parseFloat` of a captured `\d+(\.\d+)?` string is never negative: a
finite result is a non-negative decimal and an over-range result is
`Infinity`. -/
theorem parseFloatDec_nonneg (s : String) : (parseFloatDec s).isNonneg = true := by
  unfold parseFloatDec
  cases h : s.data.dropWhile (fun c => c != '.') with
  | nil =>
    simp only [h]
    split
    · rfl
    · simp only [JsNumber.isNonneg, decide_eq_true_eq]
      positivity
  | cons c frac =>
    simp only [h]
    split
    · rfl
    · simp only [JsNumber.isNonneg, decide_eq_true_eq]
      positivity

/-- C9 (amended): every `BountyCommand` produced by the parser has a
non-negative amount — either a non-negative finite decimal or `Infinity`,
the binary64 overflow of an over-range amount literal; it is never
negative.  Strict positivity fails at `0` and finiteness fails at
over-range amounts — see the counterexample. -/
theorem c9_amount_nonneg (users : List AuthorizedUser) (comment : GitHubComment)
    (cmd : BountyCommand) (h : parseBountyCommand users comment = some cmd) :
    cmd.amount.isNonneg = true := by
  unfold parseBountyCommand at h
  cases hs : searchBountyCommand comment.body.data with
  | none => rw [hs] at h; exact absurd h (by simp)
  | some p =>
    obtain ⟨amountStr, tokenStr⟩ := p
    cases ha : isAuthorized users comment.user.login with
    | false => simp [hs, ha] at h
    | true =>
      simp only [hs, ha, if_true, Option.some.injEq] at h
      subst h
      exact parseFloatDec_nonneg amountStr

/-- Witness for C9 (amended): the parsed `/bounty 5 …` command has a
non-negative amount. -/
theorem c9_amount_nonneg_witness :
    commandFix.amount.isNonneg = true :=
  c9_amount_nonneg envBase.authorizedUsers commentFix commandFix (by decide)

/-! ## Authorization and the poll loop (claims C3, C4, C7) -/

/-- A requester matched by no allow-list entry (case-insensitively) is not
authorized; with an empty allow-list the hypothesis is vacuous, so no one
is authorized. -/
theorem isAuthorized_eq_false (users : List AuthorizedUser) (username : String)
    (h : ∀ u ∈ users, strToLower u.username ≠ strToLower username) :
    isAuthorized users username = false := by
  unfold isAuthorized
  split
  · rfl
  · rw [List.any_eq_false]
    intro u hu
    simp only [beq_iff_eq]
    exact h u hu

/-- An unauthorized requester makes the parser return `null`, whether or
not the body matches the pattern. -/
theorem parseBountyCommand_eq_none_of_unauthorized (users : List AuthorizedUser)
    (comment : GitHubComment) (h : isAuthorized users comment.user.login = false) :
    parseBountyCommand users comment = none := by
  unfold parseBountyCommand
  cases hs : searchBountyCommand comment.body.data with
  | none => rfl
  | some p =>
    obtain ⟨a, t⟩ := p
    simp [h]

def c3Comment : GitHubComment := { commentFix with user := ⟨"bob"⟩ }

def envC3 : Env := { envBase with listCommentsForRepo := fun _ _ => .ok [c3Comment] }

/-- C3 counterexample: `c3Comment` matches the command pattern
syntactically and its requester `bob` is not on the allow-list
(`Alice` only), yet the poll tick posts *nothing* — the unauthorized
command is silently dropped (only marked processed), with no
`not authorized` response surfaced anywhere. -/
theorem c3_counterexample :
    (searchBountyCommand c3Comment.body.data).isSome = true ∧
    isAuthorized envC3.authorizedUsers c3Comment.user.login = false ∧
    checkForBountyCommands envC3 ["acme/widgets"] [] 0 = ([101], [], [], 0) := by
  exact ⟨rfl, rfl, rfl⟩

/-- C3 (amended): for every comment whose requester matches no allow-list
entry under case-insensitive comparison — in particular any requester when
the allow-list is empty (fail-closed) — the parser returns `null` and the
poll step invokes no pipeline and posts no comment: the unauthorized
command is silently dropped, indistinguishable from "no command found". -/
theorem c3_unauthorized_never_invoked (env : Env) (comment : GitHubComment)
    (processed : List Nat) (n : Nat)
    (hauth : ∀ u ∈ env.authorizedUsers, strToLower u.username ≠ strToLower comment.user.login) :
    parseBountyCommand env.authorizedUsers comment = none ∧
    (processComments env [comment] processed n).2.1 = [] ∧
    (processComments env [comment] processed n).2.2.1 = [] := by
  have hfalse := isAuthorized_eq_false env.authorizedUsers comment.user.login hauth
  have hnone := parseBountyCommand_eq_none_of_unauthorized env.authorizedUsers comment hfalse
  refine ⟨hnone, ?_, ?_⟩ <;>
  · unfold processComments
    split
    · simp [processComments]
    · simp [hnone, processComments]

/-- Witness for C3 (amended), at a concrete unauthorized comment. -/
theorem c3_unauthorized_never_invoked_witness :
    parseBountyCommand envC3.authorizedUsers c3Comment = none ∧
    (processComments envC3 [c3Comment] [] 0).2.1 = [] ∧
    (processComments envC3 [c3Comment] [] 0).2.2.1 = [] :=
  c3_unauthorized_never_invoked envC3 c3Comment [] 0 (by decide)

/-- Membership in the processed-comment registry is preserved by a comment
loop. -/
theorem processComments_mem_processed (env : Env) (comments : List GitHubComment) :
    ∀ processed n id, id ∈ processed → id ∈ (processComments env comments processed n).1 := by
  induction comments with
  | nil => intro processed n id h; simpa [processComments] using h
  | cons c rest ih =>
    intro processed n id h
    unfold processComments
    split
    · exact ih _ _ _ h
    · cases hp : parseBountyCommand env.authorizedUsers c with
      | none => simp only [hp]; exact ih _ _ _ (List.mem_cons_of_mem _ h)
      | some cmd => simp only [hp]; exact ih _ _ _ (List.mem_cons_of_mem _ h)

/-- A comment id already in the registry is never invoked by a comment
loop. -/
theorem processComments_not_invoked (env : Env) (comments : List GitHubComment) :
    ∀ processed n id, id ∈ processed → ∀ cmd,
      (id, cmd) ∉ (processComments env comments processed n).2.2.1 := by
  induction comments with
  | nil => intro processed n id h cmd; simp [processComments]
  | cons c rest ih =>
    intro processed n id h cmd
    unfold processComments
    split
    · exact ih _ _ _ h cmd
    · rename_i hc
      cases hp : parseBountyCommand env.authorizedUsers c with
      | none => simp only [hp]; exact ih _ _ _ (List.mem_cons_of_mem _ h) cmd
      | some cmd' =>
        simp only [hp]
        intro hmem
        rcases List.mem_cons.mp hmem with heq | hmem'
        · have hid : id = c.id := congrArg Prod.fst heq
          exact hc (hid ▸ List.elem_eq_true_of_mem h)
        · exact ih _ _ _ (List.mem_cons_of_mem _ h) cmd hmem'

/-- A comment id already in the registry is never invoked by a whole poll
tick. -/
theorem checkForBountyCommands_not_invoked (env : Env) (repos : List String) :
    ∀ processed n id, id ∈ processed → ∀ cmd,
      (id, cmd) ∉ (checkForBountyCommands env repos processed n).2.2.1 := by
  induction repos with
  | nil => intro processed n id h cmd; simp [checkForBountyCommands]
  | cons r rest ih =>
    intro processed n id h cmd
    unfold checkForBountyCommands
    simp only [List.mem_append]
    rintro (h1 | h2)
    · exact processComments_not_invoked env _ _ _ _ h cmd h1
    · exact ih _ _ _ (processComments_mem_processed env _ _ _ _ h) cmd h2

/-- Under a reporting-capable environment the failure block posts exactly
one comment. -/
theorem postFailureReport_posts_length (env : Env) (command : BountyCommand)
    (sig : Option String) (resp : Option BountyResponse) (e : JsError) (n : Nat)
    (h : ReportingOk env) :
    (postFailureReport env command sig resp e n).2.1.length = 1 := by
  obtain ⟨hissue, hpost⟩ := h
  obtain ⟨iss, hiss⟩ := hissue command.issueUrl
  unfold postFailureReport
  rw [hiss]
  simp [hpost]

/-- Under a reporting-capable environment the error handler posts exactly
one comment. -/
theorem handleProcessError_posts_length (env : Env) (command : BountyCommand)
    (sig : Option String) (resp : Option BountyResponse) (e : JsError) (n : Nat)
    (h : ReportingOk env) :
    (handleProcessError env command sig resp e n).2.1.length = 1 := by
  cases sig with
  | none =>
    cases resp with
    | none =>
      unfold handleProcessError
      exact postFailureReport_posts_length env command none none e n h
    | some r =>
      unfold handleProcessError
      exact postFailureReport_posts_length env command none (some r) e n h
  | some s =>
    cases resp with
    | none =>
      unfold handleProcessError
      exact postFailureReport_posts_length env command (some s) none e n h
    | some r =>
      unfold handleProcessError
      dsimp only
      split
      · exact postFailureReport_posts_length env command (some s) (some r) e n h
      · split
        · obtain ⟨iss, hiss⟩ := h.1 command.issueUrl
          rw [hiss]
          simp [h.2]
        · exact postFailureReport_posts_length env command (some s) (some r) e _ h

/-- Under a reporting-capable environment every pipeline invocation posts
exactly one terminal comment, whatever the other collaborators do. -/
theorem processBountyCommand_posts_length (env : Env) (command : BountyCommand) (n : Nat)
    (h : ReportingOk env) :
    (processBountyCommand env command n).2.1.length = 1 := by
  unfold processBountyCommand
  cases hc : createBountyTransaction env command with
  | error e => exact handleProcessError_posts_length env command none none e n h
  | ok resp =>
    cases hsend : (signAndSendTransaction env resp.serializedTransaction n).1 with
    | error e =>
      simp only [hsend]
      exact handleProcessError_posts_length env command none (some resp) e _ h
    | ok sig =>
      obtain ⟨iss, hiss⟩ := h.1 command.issueUrl
      simp only [hsend, hiss]
      simp [h.2]

/-- C4: the processed-comment registry dedupes.  First conjunct: an id
already marked seen is never invoked again by any later poll tick.
Second conjunct: two comments with the same id arriving in one tick cause
exactly one pipeline invocation, and the posted comments are exactly those
of that single invocation — one comment when the environment can report. -/
theorem c4_dedup_registry :
    (∀ env repos processed n id, id ∈ processed → ∀ cmd,
      (id, cmd) ∉ (checkForBountyCommands env repos processed n).2.2.1) ∧
    (∀ env (c c' : GitHubComment) processed n cmd, c'.id = c.id →
      processed.contains c.id = false →
      parseBountyCommand env.authorizedUsers c = some cmd →
      (processComments env [c, c'] processed n).2.2.1 = [(c.id, cmd)] ∧
      (processComments env [c, c'] processed n).2.1 = (processBountyCommand env cmd n).2.1 ∧
      (ReportingOk env → (processComments env [c, c'] processed n).2.1.length = 1)) := by
  constructor
  · intro env repos processed n id h cmd
    exact checkForBountyCommands_not_invoked env repos processed n id h cmd
  · intro env c c' processed n cmd hid hcon hp
    have hnotmem : c.id ∉ processed := by
      intro hm
      have hx : List.elem c.id processed = false := hcon
      rw [List.elem_eq_true_of_mem hm] at hx
      cases hx
    refine ⟨?_, ?_, ?_⟩
    · simp [processComments, hp, hnotmem, hid]
    · simp [processComments, hp, hnotmem, hid]
    · intro hr
      have h1 : (processComments env [c, c'] processed n).2.1 =
          (processBountyCommand env cmd n).2.1 := by
        simp [processComments, hp, hnotmem, hid]
      rw [h1]
      exact processBountyCommand_posts_length env cmd n hr

/-- Witness for C4 at concrete inputs: id `5` is already marked, so a tick
listing nothing never invokes it; and the duplicated `commentFix` causes
one invocation and one post. -/
theorem c4_dedup_registry_witness :
    ((101, commandFix) ∉ (checkForBountyCommands envBase [] [101] 0).2.2.1) ∧
    (processComments envBase [commentFix, commentFix] [] 0).2.2.1 = [(101, commandFix)] ∧
    (processComments envBase [commentFix, commentFix] [] 0).2.1.length = 1 := by
  refine ⟨c4_dedup_registry.1 envBase [] [101] 0 101 (by simp) commandFix, ?_, ?_⟩
  · exact (c4_dedup_registry.2 envBase commentFix commentFix [] 0 commandFix rfl (by decide)
      (by decide)).1
  · exact (c4_dedup_registry.2 envBase commentFix commentFix [] 0 commandFix rfl (by decide)
      (by decide)).2.2 ⟨fun url => ⟨issueFix, rfl⟩, fun _ _ _ _ => rfl⟩

/-- The failure block never throws: both of its fallible calls are inside
its `try`/`catch`. -/
theorem postFailureReport_ok (env : Env) (command : BountyCommand)
    (sig : Option String) (resp : Option BountyResponse) (e : JsError) (n : Nat) :
    (postFailureReport env command sig resp e n).1 = .ok () := by
  unfold postFailureReport
  split
  · rfl
  · split <;> rfl

/-- The error handler never throws. -/
theorem handleProcessError_ok (env : Env) (command : BountyCommand)
    (sig : Option String) (resp : Option BountyResponse) (e : JsError) (n : Nat) :
    (handleProcessError env command sig resp e n).1 = .ok () := by
  unfold handleProcessError
  split
  · split
    · apply postFailureReport_ok
    · split
      · split
        · apply postFailureReport_ok
        · split
          · rfl
          · apply postFailureReport_ok
      · apply postFailureReport_ok
  · apply postFailureReport_ok

/-- The pipeline never throws: every failure inside one command's
processing is converted at the boundary. -/
theorem processBountyCommand_ok (env : Env) (command : BountyCommand) (n : Nat) :
    (processBountyCommand env command n).1 = .ok () := by
  unfold processBountyCommand
  split
  · apply handleProcessError_ok
  · split
    · apply handleProcessError_ok
    · split
      · apply handleProcessError_ok
      · split
        · apply handleProcessError_ok
        · rfl

/-- Every comment listed in a poll step ends up marked in the registry,
whatever the environment does: no command's processing aborts the
bookkeeping of the surrounding iteration. -/
theorem processComments_marks_all (env : Env) (comments : List GitHubComment) :
    ∀ processed n c, c ∈ comments →
      c.id ∈ (processComments env comments processed n).1 := by
  induction comments with
  | nil => intro processed n c hc; cases hc
  | cons c' rest ih =>
    intro processed n c hc
    unfold processComments
    rcases List.mem_cons.mp hc with heq | hmem
    · subst heq
      split
      · rename_i hcon
        exact processComments_mem_processed env rest _ _ _ (List.mem_of_elem_eq_true hcon)
      · cases hp : parseBountyCommand env.authorizedUsers c with
        | none =>
          simp only [hp]
          exact processComments_mem_processed env rest _ _ _ (List.mem_cons_self _ _)
        | some cmd =>
          simp only [hp]
          exact processComments_mem_processed env rest _ _ _ (List.mem_cons_self _ _)
    · split
      · exact ih _ _ _ hmem
      · cases hp : parseBountyCommand env.authorizedUsers c' with
        | none => simp only [hp]; exact ih _ _ _ hmem
        | some cmd => simp only [hp]; exact ih _ _ _ hmem

/-- C7: failures are contained at the pipeline boundary.  First conjunct:
`processBountyCommand` never throws, for every environment, command and
counter.  Second conjunct: every comment listed in a poll step is marked in
the registry regardless of processing outcomes — the tick's bookkeeping is
never aborted.  Third conjunct: when the environment can report (issue
fetches and comment posts succeed), every pipeline invocation — in
particular every authorized, syntactically valid command — yields exactly
one terminal comment. -/
theorem c7_pipeline_boundary :
    (∀ env command n, (processBountyCommand env command n).1 = .ok ()) ∧
    (∀ env comments processed n c, c ∈ comments →
      c.id ∈ (processComments env comments processed n).1) ∧
    (∀ env command n, ReportingOk env →
      (processBountyCommand env command n).2.1.length = 1) :=
  ⟨fun env command n => processBountyCommand_ok env command n,
   fun env comments processed n c hc => processComments_marks_all env comments processed n c hc,
   fun env command n hr => processBountyCommand_posts_length env command n hr⟩

/-- Witness for C7 at a concrete comment, command and environment. -/
theorem c7_pipeline_boundary_witness :
    (processBountyCommand envTimeout commandFix 0).1 = .ok () ∧
    commentFix.id ∈ (processComments envBase [commentFix] [] 0).1 ∧
    (processBountyCommand envBase commandFix 0).2.1.length = 1 :=
  ⟨c7_pipeline_boundary.1 envTimeout commandFix 0,
   c7_pipeline_boundary.2.1 envBase [commentFix] [] 0 commentFix (List.mem_cons_self _ _),
   c7_pipeline_boundary.2.2 envBase commandFix 0
     ⟨fun _ => ⟨issueFix, rfl⟩, fun _ _ _ _ => rfl⟩⟩

/-! ## Confirmation-ambiguity logic (claims C2, C5, C8) -/

/-- A status check answers `true` when the query reports a confirmed or
finalized status. -/
theorem checkTransactionStatus_true (env : Env) (sig : String) (n : Nat)
    (stv : SignatureStatusValue)
    (hstatus : env.getSignatureStatus n sig = .ok (some stv))
    (hstv : stv.confirmationStatus = some "confirmed" ∨
      stv.confirmationStatus = some "finalized") :
    checkTransactionStatus env sig n = (true, n + 1) := by
  unfold checkTransactionStatus
  rw [hstatus]
  rcases hstv with h | h <;> simp [h]

/-- A status check answers `false` when the query reports no status. -/
theorem checkTransactionStatus_false (env : Env) (sig : String) (n : Nat)
    (hstatus : env.getSignatureStatus n sig = .ok none) :
    checkTransactionStatus env sig n = (false, n + 1) := by
  unfold checkTransactionStatus
  rw [hstatus]

/-- When the primary confirmation errors but the fallback status check
reports the transaction confirmed, submission resolves successfully with
the submitted signature, after exactly one status check. -/
theorem signAndSendTransaction_fallback_confirmed (env : Env) (blob sig : String)
    (n : Nat) (ce : JsError) (stv : SignatureStatusValue)
    (hsign : env.signTransactionBlob blob = .ok ())
    (hsend : env.sendTransaction blob = .ok sig)
    (hbh : env.getLatestBlockhash = .ok ())
    (hconf : env.confirmTransaction = .error ce)
    (hstatus : env.getSignatureStatus n sig = .ok (some stv))
    (hstv : stv.confirmationStatus = some "confirmed" ∨
      stv.confirmationStatus = some "finalized") :
    signAndSendTransaction env blob n = (.ok sig, n + 1) := by
  unfold signAndSendTransaction
  simp only [hsign, hsend, hbh, hconf,
    checkTransactionStatus_true env sig n stv hstatus hstv, if_true]

/-- C2: when the primary confirmation call errors (or times out) but the
fallback status check reports `confirmed` (or `finalized`), the pipeline
resolves to success and the posted report is the success report citing the
submitted signature — never a failure report. -/
theorem c2_fallback_confirmed_success (env : Env) (command : BountyCommand)
    (resp : BountyResponse) (sig : String) (issueDetails : GitHubIssue)
    (ce : JsError) (stv : SignatureStatusValue) (n : Nat)
    (hcreate : createBountyTransaction env command = .ok resp)
    (hsign : env.signTransactionBlob resp.serializedTransaction = .ok ())
    (hsend : env.sendTransaction resp.serializedTransaction = .ok sig)
    (hbh : env.getLatestBlockhash = .ok ())
    (hconf : env.confirmTransaction = .error ce)
    (hstatus : ∀ i, env.getSignatureStatus i sig = .ok (some stv))
    (hstv : stv.confirmationStatus = some "confirmed" ∨
      stv.confirmationStatus = some "finalized")
    (hissue : env.getIssueFromUrl command.issueUrl = .ok issueDetails)
    (hpost : ∀ owner repo issueNumber body,
      env.commentOnIssue owner repo issueNumber body = .ok ()) :
    (processBountyCommand env command n).1 = .ok () ∧
    (processBountyCommand env command n).2.1 =
      [⟨(getRepoInfoFromUrl issueDetails.repository_url).1,
        (getRepoInfoFromUrl issueDetails.repository_url).2, issueDetails.number,
        successReportBody env command resp sig "Transaction confirmed."⟩] ∧
    MentionsSig (successReportBody env command resp sig "Transaction confirmed.") sig := by
  have hsas := signAndSendTransaction_fallback_confirmed env resp.serializedTransaction sig n
    ce stv hsign hsend hbh hconf (hstatus n) hstv
  refine ⟨processBountyCommand_ok env command n, ?_, ?_⟩
  · simp only [processBountyCommand, hcreate, hsas, hissue, hpost,
      checkTransactionStatus_true env sig (n + 1) stv (hstatus (n + 1)) hstv,
      statusNoteFor, if_true]
  · exact ⟨successReportHead env command resp "Transaction confirmed.",
      ")\n\nThank you for contributing to the project!", rfl⟩

def envC2 : Env :=
  { envBase with
    confirmTransaction := .error
      { message := "Confirmation timeout", signature := none, isBlockheightExceeded := false } }

/-- Witness for C2 at a concrete timed-out-then-confirmed environment. -/
theorem c2_fallback_confirmed_success_witness :
    (processBountyCommand envC2 commandFix 0).1 = .ok () ∧
    (processBountyCommand envC2 commandFix 0).2.1 =
      [⟨"acme", "widgets", 7,
        successReportBody envC2 commandFix respFix "TESTSIGNATURE123" "Transaction confirmed."⟩] ∧
    MentionsSig
      (successReportBody envC2 commandFix respFix "TESTSIGNATURE123" "Transaction confirmed.")
      "TESTSIGNATURE123" := by
  have h := c2_fallback_confirmed_success envC2 commandFix respFix "TESTSIGNATURE123" issueFix
    { message := "Confirmation timeout", signature := none, isBlockheightExceeded := false }
    ⟨some "confirmed"⟩ 0 rfl rfl rfl rfl rfl (fun _ => rfl) (Or.inl rfl) rfl
    (fun _ _ _ _ => rfl)
  exact ⟨h.1, h.2.1.trans (by rfl), h.2.2⟩

/-- When no status check ever confirms, the retry loop runs to exhaustion,
performing exactly one status check per unit of fuel. -/
theorem retryStatusChecks_exhaust (env : Env) (sig : String)
    (hstatus : ∀ i, env.getSignatureStatus i sig = .ok none) :
    ∀ fuel n, retryStatusChecks env sig fuel n = n + fuel := by
  intro fuel
  induction fuel with
  | zero => intro n; simp [retryStatusChecks]
  | succ f ih =>
    intro n
    unfold retryStatusChecks
    rw [checkTransactionStatus_false env sig n (hstatus n)]
    simp only [Bool.false_eq_true, if_false]
    rw [ih (n + 1)]
    omega

/-- When confirmation fails with the blockhash-height-exceeded error and no
status check ever confirms, submission performs the fallback check plus
exactly 3 additional checks (4 in all) and still resolves with the
signature rather than throwing. -/
theorem signAndSendTransaction_blockheight_exhaust (env : Env) (blob sig : String)
    (n : Nat) (ce : JsError)
    (hsign : env.signTransactionBlob blob = .ok ())
    (hsend : env.sendTransaction blob = .ok sig)
    (hbh : env.getLatestBlockhash = .ok ())
    (hconf : env.confirmTransaction = .error ce)
    (hbhe : ce.isBlockheightExceeded = true)
    (hstatus : ∀ i, env.getSignatureStatus i sig = .ok none) :
    signAndSendTransaction env blob n = (.ok sig, n + 4) := by
  unfold signAndSendTransaction
  simp only [hsign, hsend, hbh, hconf,
    checkTransactionStatus_false env sig n (hstatus n), hbhe,
    retryStatusChecks_exhaust env sig hstatus 3 (n + 1),
    Bool.false_eq_true, if_false, if_true]

/-- C5: after a blockhash-height-exceeded confirmation error whose fallback
check does not confirm, the pipeline performs exactly 3 additional delayed
status checks; when all exhaust unconfirmed it resolves as an ambiguous
success — the posted report says the transaction was submitted with
confirmation pending and cites the submitted signature — not as a
failure. -/
theorem c5_blockheight_ambiguous_success (env : Env) (command : BountyCommand)
    (resp : BountyResponse) (sig : String) (issueDetails : GitHubIssue)
    (ce : JsError) (n : Nat)
    (hcreate : createBountyTransaction env command = .ok resp)
    (hsign : env.signTransactionBlob resp.serializedTransaction = .ok ())
    (hsend : env.sendTransaction resp.serializedTransaction = .ok sig)
    (hbh : env.getLatestBlockhash = .ok ())
    (hconf : env.confirmTransaction = .error ce)
    (hbhe : ce.isBlockheightExceeded = true)
    (hstatus : ∀ i s, env.getSignatureStatus i s = .ok none)
    (hissue : env.getIssueFromUrl command.issueUrl = .ok issueDetails)
    (hpost : ∀ owner repo issueNumber body,
      env.commentOnIssue owner repo issueNumber body = .ok ()) :
    signAndSendTransaction env resp.serializedTransaction n = (.ok sig, n + 4) ∧
    (processBountyCommand env command n).1 = .ok () ∧
    (processBountyCommand env command n).2.1 =
      [⟨(getRepoInfoFromUrl issueDetails.repository_url).1,
        (getRepoInfoFromUrl issueDetails.repository_url).2, issueDetails.number,
        successReportBody env command resp sig
          "Transaction submitted but confirmation is pending. You can check its status using the transaction link below."⟩] ∧
    MentionsSig
      (successReportBody env command resp sig
        "Transaction submitted but confirmation is pending. You can check its status using the transaction link below.")
      sig := by
  have hsas := signAndSendTransaction_blockheight_exhaust env resp.serializedTransaction sig n
    ce hsign hsend hbh hconf hbhe (fun i => hstatus i sig)
  refine ⟨hsas, processBountyCommand_ok env command n, ?_, ?_⟩
  · simp only [processBountyCommand, hcreate, hsas, hissue, hpost,
      checkTransactionStatus_false env sig (n + 4) (hstatus (n + 4) sig),
      statusNoteFor, Bool.false_eq_true, if_false]
  · exact ⟨successReportHead env command resp
      "Transaction submitted but confirmation is pending. You can check its status using the transaction link below.",
      ")\n\nThank you for contributing to the project!", rfl⟩

/-- Witness for C5 at the concrete blockhash-height-exceeded environment. -/
theorem c5_blockheight_ambiguous_success_witness :
    signAndSendTransaction envBlockheight respFix.serializedTransaction 0 =
      (.ok "TESTSIGNATURE123", 4) ∧
    (processBountyCommand envBlockheight commandFix 0).2.1 =
      [⟨"acme", "widgets", 7,
        successReportBody envBlockheight commandFix respFix "TESTSIGNATURE123"
          "Transaction submitted but confirmation is pending. You can check its status using the transaction link below."⟩] := by
  have h := c5_blockheight_ambiguous_success envBlockheight commandFix respFix
    "TESTSIGNATURE123" issueFix
    { message := "block height exceeded", signature := none, isBlockheightExceeded := true }
    0 rfl rfl rfl rfl rfl rfl (fun _ _ => rfl) rfl (fun _ _ _ _ => rfl)
  exact ⟨h.1, h.2.2.1.trans (by rfl)⟩

/-- C8: when no signature was ever obtained — the marketplace/build step
throws, or signing throws (such errors carry no `signature` property) —
the posted report is the failure report built from the bare error message:
the template `❌ Issue with bounty creation: <message>` appends no
signature and no block-explorer link (compare `failureErrorMessage`, which
only adds those when a signature is known). -/
theorem c8_no_signature_failure (env : Env) (command : BountyCommand) (n : Nat)
    (e : JsError) (issueDetails : GitHubIssue)
    (hissue : env.getIssueFromUrl command.issueUrl = .ok issueDetails)
    (hpost : ∀ owner repo issueNumber body,
      env.commentOnIssue owner repo issueNumber body = .ok ()) :
    (createBountyTransaction env command = .error e →
      processBountyCommand env command n =
        (.ok (),
         [⟨(getRepoInfoFromUrl issueDetails.repository_url).1,
           (getRepoInfoFromUrl issueDetails.repository_url).2, issueDetails.number,
           failureReportBody e.message⟩], n)) ∧
    (∀ resp, createBountyTransaction env command = .ok resp →
      env.signTransactionBlob resp.serializedTransaction = .error e →
      e.signature = none →
      processBountyCommand env command n =
        (.ok (),
         [⟨(getRepoInfoFromUrl issueDetails.repository_url).1,
           (getRepoInfoFromUrl issueDetails.repository_url).2, issueDetails.number,
           failureReportBody e.message⟩], n)) ∧
    failureReportBody e.message = "❌ Issue with bounty creation: " ++ e.message := by
  refine ⟨?_, ?_, rfl⟩
  · intro hc
    simp only [processBountyCommand, hc, handleProcessError, postFailureReport, hissue,
      hpost, failureErrorMessage]
  · intro resp hc hs hsigne
    have hsas : signAndSendTransaction env resp.serializedTransaction n = (.error e, n) := by
      unfold signAndSendTransaction
      simp only [hs, hsigne]
    simp only [processBountyCommand, hc, hsas, handleProcessError, postFailureReport, hissue,
      hpost, failureErrorMessage]

def envC8 : Env :=
  { envBase with
    postTask := fun _ => .error
      { message := "Failed to create bounty: Bad Request. Details: invalid token"
        signature := none
        isBlockheightExceeded := false } }

/-- Witness for C8: a marketplace rejection yields the bare failure report,
which contains no explorer link (and a fortiori no signature). -/
theorem c8_no_signature_failure_witness :
    processBountyCommand envC8 commandFix 0 =
      (.ok (),
       [⟨(getRepoInfoFromUrl issueFix.repository_url).1,
         (getRepoInfoFromUrl issueFix.repository_url).2, issueFix.number,
         failureReportBody "Failed to create bounty: Bad Request. Details: invalid token"⟩],
       0) ∧
    strContains
      (failureReportBody "Failed to create bounty: Bad Request. Details: invalid token")
      "https://explorer.solana.com/tx/" = false := by
  refine ⟨(c8_no_signature_failure envC8 commandFix 0
    { message := "Failed to create bounty: Bad Request. Details: invalid token"
      signature := none
      isBlockheightExceeded := false }
    issueFix rfl (fun _ _ _ _ => rfl)).1 rfl, by decide⟩

end GibworkBot
